import Mathlib

/-
Verification of the maka-rest route-registration / request-dispatch pipeline.

The definitions below are a shallow embedding of the TypeScript sources:
  - src/lib/route.ts           (Route: _configureEndpoints, _callEndpoint,
                                _authAccepted, _authenticate, _roleAccepted,
                                addToApi duplicate-path guard, try/catch wrapper)
  - src/unnamed/part_002       (Route variant with rate limiting)
  - src/unnamed/part_003       (Route variant whose catch block writes a 500)
  - src/unnamed/part_005       (JsonRoutes.matchRoute: segment matching)
  - src/unnamed/part_006       (Codes: response envelope constructors)
  - src/lib/maka-rest.ts       (default credential extractor, _logout, _logoutAll)

JavaScript string primitives (split('/'), startsWith(':'), substring(1),
slice(0,-1), endsWith('/'), toUpperCase()) are embedded as char-list
functions so that every definition evaluates inside the kernel.
External collaborators (alanning:roles, rate-limiter-flexible, the Meteor
user store, the token hash) are modelled as explicit parameters.
-/

namespace MakaRest

/-- Embedding of JavaScript `s.split('/')` : accumulate the current segment,
emitting it at each slash and at the end of input. -/
def jsSplitSlashAux : List Char → List Char → List String
  | [], acc => [String.mk acc.reverse]
  | c :: cs, acc =>
    if c = '/' then String.mk acc.reverse :: jsSplitSlashAux cs []
    else jsSplitSlashAux cs (c :: acc)

/-- JavaScript `path.split('/')`. -/
def jsSplitSlash (s : String) : List String := jsSplitSlashAux s.data []

/-- JavaScript `s.startsWith(':')`. -/
def startsWithColon (s : String) : Bool :=
  match s.data with
  | c :: _ => c = ':'
  | [] => false

/-- JavaScript `s.substring(1)`. -/
def jsSubstringFrom1 (s : String) : String := String.mk (s.data.drop 1)

/-- JavaScript `s.endsWith('/')`. -/
def jsEndsWithSlash (s : String) : Bool :=
  match s.data.getLast? with
  | some c => c = '/'
  | none => false

/-- JavaScript `s.slice(0, -1)`. -/
def jsSliceDropLast (s : String) : String := String.mk s.data.dropLast

/-- JavaScript `s.toUpperCase()` (ASCII, which covers the HTTP method names used). -/
def jsToUpper (s : String) : String := String.mk (s.data.map Char.toUpper)

/-- Reason phrases of the external http-status-codes library (getReasonPhrase),
restricted to the status codes this pipeline produces. -/
def getReasonPhrase (c : Nat) : String :=
  if c = 200 then "OK"
  else if c = 401 then "Unauthorized"
  else if c = 403 then "Forbidden"
  else if c = 404 then "Not Found"
  else if c = 429 then "Too Many Requests"
  else if c = 500 then "Internal Server Error"
  else "Unknown"

/-- StatusResponse envelope from src/unnamed/part_006 (interface StatusResponse):
statusCode, derived status string, body, optional extra.  Headers are omitted:
no claim mentions them. -/
structure StatusResponse where
  statusCode : Nat
  status : String
  body : String
  extra : Option String := none
deriving Repr, DecidableEq

/-- Codes.generateResponse from src/unnamed/part_006. -/
def generateResponse (statusCode : Nat) (body : String) (extra : Option String) : StatusResponse :=
  { statusCode := statusCode, status := getReasonPhrase statusCode, body := body, extra := extra }

/-- Codes.success200 (default body is an empty object; callers in scope pass a string). -/
def success200 (body : String) : StatusResponse := generateResponse 200 body none

/-- Codes.unauthorized401 with an explicit body. -/
def unauthorized401 (body : String) : StatusResponse := generateResponse 401 body none

/-- Codes.unauthorized401 with its default body 'Unauthorized'. -/
def unauthorized401Default : StatusResponse := unauthorized401 "Unauthorized"

/-- Codes.forbidden403 with its default body 'Forbidden'. -/
def forbidden403 : StatusResponse := generateResponse 403 "Forbidden" none

/-- Codes.notFound404 with its default body 'Not Found'. -/
def notFound404 : StatusResponse := generateResponse 404 "Not Found" none

/-- A user record of the external Meteor user store, together with the
role/scope data the external alanning:roles package would consult for it. -/
structure User where
  uid : String
  roles : List String
  scopes : List String
deriving Repr, DecidableEq

/-- Roles.userIsInRole of the external alanning:roles package: the user holds
at least one of the listed roles. -/
def userIsInRole (u : User) (roleList : List String) : Bool :=
  roleList.any (fun r => u.roles.contains r)

/-- Roles.getScopesForUser of the external alanning:roles package. -/
def getScopesForUser (u : User) : List String := u.scopes

/-- EndpointOptions from src/lib/route.ts (authRequired?, roleRequired?,
scopeRequired?); `none` is JavaScript `undefined`. -/
structure EndpointOptions where
  authRequired : Option Bool := none
  roleRequired : Option (List String) := none
  scopeRequired : Option (List String) := none
deriving Repr, DecidableEq

/-- The route-level options consulted by Route._configureEndpoints. -/
structure RouteOptions where
  authRequired : Option Bool := none
  roleRequired : Option (List String) := none
deriving Repr, DecidableEq

/-- Route._configureEndpoints from src/lib/route.ts lines 97–106, acting on a
single endpoint of the given method:
roleRequired becomes the endpoint-level list concatenated with the
route-level list (undefined when the concatenation is empty), and
authRequired keeps an explicit endpoint value, else falls back to
`options.authRequired || !!endpoint.roleRequired`. -/
def configureEndpoint (options : RouteOptions) (method : String) (e : EndpointOptions) :
    EndpointOptions :=
  if method = "options" then e
  else
    let rr1 := e.roleRequired.getD [] ++ options.roleRequired.getD []
    let rr2 := if rr1.length > 0 then some rr1 else none
    let ar :=
      match e.authRequired with
      | some b => b
      | none => options.authRequired.getD false || rr2.isSome
    { authRequired := some ar, roleRequired := rr2, scopeRequired := e.scopeRequired }

/-- The parts of an incoming HTTP request the embedded pipeline consults. -/
structure Request where
  xAuthToken : Option String := none
  ip : String := ""

/-- The authentication environment: the pluggable credential extractor
(_config.auth.user) and the external user-store lookup
(Meteor.users.findOneAsync on the hashed-token selector). -/
structure ApiAuthConfig where
  extract : Request → Option String
  lookup : String → Option User

/-- The default credential extractor from src/lib/maka-rest.ts lines 59–68:
hash the X-Auth-Token header when present, else no token. -/
def defaultAuthUser (hash : String → String) (req : Request) : Option String :=
  req.xAuthToken.map hash

/-- Result of Route._authAccepted / Route._authenticate: success flag, the
auth data surfaced on success, and the user attached to the context. -/
structure AuthOutcome where
  success : Bool
  data : Option String := none
  user : Option User := none

/-- Route._authenticate from src/lib/route.ts lines 128–141: fail when the
extractor yields no token or the token resolves to no user record; on
success attach the user and surface the auth data. -/
def authenticate (cfg : ApiAuthConfig) (req : Request) : AuthOutcome :=
  match cfg.extract req with
  | none => { success := false }
  | some tok =>
    match cfg.lookup tok with
    | none => { success := false }
    | some u => { success := true, data := some tok, user := some u }

/-- Route._authAccepted from src/lib/route.ts lines 121–126: authenticate only
when the endpoint requires it, else auto-succeed with no user attached. -/
def authAccepted (cfg : ApiAuthConfig) (e : EndpointOptions) (req : Request) : AuthOutcome :=
  if e.authRequired.getD false then authenticate cfg req else { success := true }

/-- Route._roleAccepted from src/lib/route.ts lines 143–153: vacuously true
without a roleRequired list or without an attached user; else the role check,
ANDed with the scope check when scopeRequired is set. -/
def roleAccepted (userOpt : Option User) (e : EndpointOptions) : Bool :=
  match e.roleRequired, userOpt with
  | none, _ => true
  | some _, none => true
  | some rr, some u =>
    let hasRole := userIsInRole u rr
    match e.scopeRequired with
    | none => hasRole
    | some sr => hasRole && sr.any (fun s => (getScopesForUser u).contains s)

/-- Route._callEndpoint from src/lib/route.ts lines 108–119: 401 on auth
failure (with the failure data when present), 403 on role/scope failure,
else the endpoint action's response. -/
def callEndpoint (cfg : ApiAuthConfig) (e : EndpointOptions) (req : Request)
    (action : Option User → StatusResponse) : StatusResponse :=
  let auth := authAccepted cfg e req
  if auth.success then
    if roleAccepted auth.user e then action auth.user
    else forbidden403
  else
    match auth.data with
    | some d => unauthorized401 d
    | none => unauthorized401Default

/-- The duplicate-path guard of Route.addToApi, src/lib/route.ts lines 45–47:
`paths.includes(path) && (onRoot && path !== '*' && path !== '/')`. -/
def addToApiGuardThrows (paths : List String) (path : String) (onRoot : Bool) : Bool :=
  paths.contains path && (onRoot && !(path = "*" : Bool) && !(path = "/" : Bool))

/-- The normalizePath helper inside JsonRoutes.matchRoute, src/unnamed/part_005
line 90: strip one trailing slash unless the path is exactly '/'. -/
def normalizePath (path : String) : String :=
  if jsEndsWithSlash path && !(path = "/" : Bool) then jsSliceDropLast path else path

/-- The segment loop of JsonRoutes.matchRoute, src/unnamed/part_005 lines
101–112: equal segment counts are required; a pattern segment starting with
':' matches anything and binds the name after the colon to the request
segment; any other pattern segment must be identical to the request segment. -/
def matchSegments : List String → List String → Option (List (String × String))
  | [], [] => some []
  | p :: ps, r :: rs =>
    if startsWithColon p then
      (matchSegments ps rs).map (fun acc => (jsSubstringFrom1 p, r) :: acc)
    else if p = r then matchSegments ps rs
    else none
  | _, _ => none

/-- JsonRoutes.matchRoute, src/unnamed/part_005 lines 85–122, for one
registered route: the method must match case-insensitively, and the
normalized paths must match segment-by-segment, yielding the extracted
urlParams. -/
def matchRoute (routeMethod routePath reqMethod reqUrl : String) :
    Option (List (String × String)) :=
  if jsToUpper routeMethod = reqMethod then
    matchSegments (jsSplitSlash (normalizePath routePath)) (jsSplitSlash (normalizePath reqUrl))
  else none

/-- A response write performed through JsonRoutes.sendResult: status code and
serialized data. -/
structure SentResult where
  code : Nat
  data : String
deriving Repr, DecidableEq

/-- The outcome of awaiting _callEndpoint inside the registered handler: a
StatusResponse, or a thrown error (carrying its message). -/
def DispatchOutcome : Type := Except String StatusResponse

/-- The try/catch wrapper of the registered handler in src/lib/route.ts
addToApi, lines 71–83: a returned StatusResponse is written through
JsonRoutes.sendResult, while a thrown error is only console.logged — no
response is written to the transport. -/
def handlerRespondLib (outcome : Except String StatusResponse) : Option SentResult :=
  match outcome with
  | Except.ok r => some { code := r.statusCode, data := r.body }
  | Except.error _ => none

/-- The try/catch wrapper of the registered handler in src/unnamed/part_003
addToApi, lines 102–130: a returned StatusResponse is written through
JsonRoutes.sendResult, and a thrown error is written as a 500 with the
generic body 'Server Error'. -/
def handlerRespondPart003 (outcome : Except String StatusResponse) : Option SentResult :=
  match outcome with
  | Except.ok r => some { code := r.statusCode, data := r.body }
  | Except.error _ => some { code := 500, data := "Server Error" }

/-- A rate limiter of the external rate-limiter-flexible package, modelled by
whether `consume(key)` resolves (true) or rejects (false) for a given key
in the current window state. -/
structure Limiter where
  consumeOk : String → Bool

/-- The rate-limit key computation of src/unnamed/part_002 lines 91–93:
the configured keyGenerator applied to the request if present, else req.ip. -/
def computeKey (keyGenerator : Option (Request → String)) (req : Request) : String :=
  match keyGenerator with
  | some g => g req
  | none => req.ip

/-- The rate-limiting prologue of the registered handler in
src/unnamed/part_002 addToApi, lines 87–105, followed by the rest of the
dispatch: when rate limiting is configured, consume one point from the
route-specific limiter if it exists, else the global one; on rejection send
429 'Too many requests' and return without dispatching.  The boolean of the
result records whether the downstream dispatch (and hence the endpoint
action) ran. -/
def handleWithRateLimit (rateConfigured : Bool) (keyGenerator : Option (Request → String))
    (routeLimiter : Option Limiter) (globalLimiter : Limiter)
    (req : Request) (dispatch : Request → SentResult) : SentResult × Bool :=
  if rateConfigured then
    let key := computeKey keyGenerator req
    let limiter := routeLimiter.getD globalLimiter
    if limiter.consumeOk key then (dispatch req, true)
    else ({ code := 429, data := "Too many requests" }, false)
  else (dispatch req, true)

/-- MakaRest._logout from src/lib/maka-rest.ts lines 206–225, as the endpoint
action of POST /logout: without an X-Auth-Token header it returns 401
'No auth token provided'; with one it pulls the matching hashed token from
the user's login-token list and returns 200. -/
def logoutAction (req : Request) (_userOpt : Option User) : StatusResponse :=
  match req.xAuthToken with
  | none => unauthorized401 "No auth token provided"
  | some _ => success200 "Logged out successfully"

/-- The logout route registered by MakaRest._initAuth, src/lib/maka-rest.ts
line 188: route options `{ authRequired: true }`, bare POST action, resolved
by Route._configureEndpoints and dispatched by Route._callEndpoint with the
default credential extractor. -/
def logoutPipeline (hash : String → String) (lookup : String → Option User)
    (req : Request) : StatusResponse :=
  callEndpoint
    { extract := defaultAuthUser hash, lookup := lookup }
    (configureEndpoint { authRequired := some true } "post" {})
    req
    (fun userOpt => logoutAction req userOpt)

/-- The Meteor.users update of _logoutAll: `$set` the login-token list of the
given user id to the empty list (an update matching an already-empty list is
still a successful update). -/
def setLoginTokensEmpty (db : List (String × List String)) (uid : String) :
    List (String × List String) :=
  db.map (fun p => if p.1 = uid then (p.1, ([] : List String)) else p)

/-- MakaRest._logoutAll from src/lib/maka-rest.ts lines 227–235: clear all
login tokens of the authenticated user, call the optional onLoggedOut hook,
and return 200 'Logged out from all devices successfully' (with the hook's
value under extra when it returned one). -/
def logoutAll (db : List (String × List String)) (u : User) (hookExtra : Option String) :
    List (String × List String) × StatusResponse :=
  let db1 := setLoginTokensEmpty db u.uid
  match hookExtra with
  | some x => (db1, { success200 "Logged out from all devices successfully" with extra := some x })
  | none => (db1, success200 "Logged out from all devices successfully")

/-- C3 counterexample: a second registration of a non-reserved path with
onRoot left at its default (false) does not trip the guard, even though the
path is already registered and is neither '*' nor '/'. -/
theorem addToApiGuard_counterexample :
    (["articles"] : List String).contains "articles" = true ∧
    ("articles" : String) ≠ "*" ∧ ("articles" : String) ≠ "/" ∧
    addToApiGuardThrows ["articles"] "articles" false = false := by
  refine ⟨by decide, by decide, by decide, by decide⟩

/-- C3 (amended): the addToApi guard raises the duplicate-path error exactly
when the path is already registered AND the new registration is flagged
onRoot AND the path is neither the reserved '*' nor '/'; a duplicate
registration that is not flagged onRoot is accepted silently, and the guard
considers only the path, never the method. -/
theorem addToApiGuard_amended (paths : List String) (path : String) (onRoot : Bool) :
    addToApiGuardThrows paths path onRoot = true ↔
      (paths.contains path = true ∧ onRoot = true ∧ path ≠ "*" ∧ path ≠ "/") := by
  simp [addToApiGuardThrows, Bool.and_eq_true, and_assoc]

/-- C4 counterexample: when the endpoint raises, the dispatcher of
src/lib/route.ts writes no response at all (the catch block only logs), so
in particular it does not write the 500 response the claim requires. -/
theorem handler_throw_counterexample :
    handlerRespondLib (Except.error "handler failure") = none ∧
    handlerRespondLib (Except.error "handler failure") ≠
      some { code := 500, data := "Server Error" } := by
  refine ⟨rfl, by decide⟩

/-- C4 (amended): on an uncaught handler failure the dispatcher variant of
src/unnamed/part_003 writes a 500 response with the generic body
'Server Error' (the detail is only logged), while the dispatcher of
src/lib/route.ts only logs the failure and writes no response. -/
theorem handler_throw_amended (e : String) :
    handlerRespondPart003 (Except.error e) = some { code := 500, data := "Server Error" } ∧
    handlerRespondLib (Except.error e) = none :=
  ⟨rfl, rfl⟩

/-- C5 counterexample: with roleRequired given at both levels, the resolved
roleRequired is the concatenation of the endpoint-level and route-level
lists, not the endpoint-level value alone (and not the route-level value). -/
theorem endpoint_override_counterexample :
    (configureEndpoint { authRequired := none, roleRequired := some ["admin"] } "get"
        { roleRequired := some ["editor"] }).roleRequired = some ["editor", "admin"] ∧
    some (["editor", "admin"] : List String) ≠ some ["editor"] ∧
    some (["editor", "admin"] : List String) ≠ some ["admin"] := by
  refine ⟨by decide, by decide, by decide⟩

/-- C5 (amended): for a non-OPTIONS endpoint, the resolved roleRequired is
the endpoint-level list concatenated with the route-level list — a
combination of both levels (undefined only when both are empty) — while
authRequired does follow endpoint-wins resolution: an explicit
endpoint-level value is kept unchanged. -/
theorem endpoint_config_merge (options : RouteOptions) (method : String)
    (e : EndpointOptions) (hm : method ≠ "options")
    (hne : e.roleRequired.getD [] ++ options.roleRequired.getD [] ≠ []) :
    (configureEndpoint options method e).roleRequired =
      some (e.roleRequired.getD [] ++ options.roleRequired.getD []) ∧
    ∀ b, e.authRequired = some b →
      (configureEndpoint options method e).authRequired = some b := by
  have hlen : (e.roleRequired.getD [] ++ options.roleRequired.getD []).length > 0 := by
    cases h : e.roleRequired.getD [] ++ options.roleRequired.getD [] with
    | nil => exact absurd h hne
    | cons a l => simp
  constructor
  · simp only [configureEndpoint]
    rw [if_neg hm, if_pos hlen]
  · intro b hb
    simp only [configureEndpoint, hb]
    rw [if_neg hm]

/-- C5 amended, witnessed at a concrete input: endpoint roleRequired
['editor'], route roleRequired ['admin'], endpoint authRequired explicitly
false. -/
theorem endpoint_config_merge_witness :
    (configureEndpoint { authRequired := none, roleRequired := some ["admin"] } "get"
        { authRequired := some false, roleRequired := some ["editor"] }).roleRequired =
      some (["editor"] ++ ["admin"]) ∧
    ∀ b, (({ authRequired := some false, roleRequired := some ["editor"] } :
        EndpointOptions).authRequired = some b) →
      (configureEndpoint { authRequired := none, roleRequired := some ["admin"] } "get"
        { authRequired := some false, roleRequired := some ["editor"] }).authRequired = some b :=
  endpoint_config_merge _ _ _ (by decide) (by decide)

/-- C6: a non-OPTIONS endpoint whose combined roleRequired is non-empty and
whose authRequired is not set explicitly at either level resolves to
authRequired = true. -/
theorem roleRequired_implies_authRequired (options : RouteOptions) (method : String)
    (e : EndpointOptions) (hm : method ≠ "options")
    (hEp : e.authRequired = none) (hRt : options.authRequired = none)
    (hne : e.roleRequired.getD [] ++ options.roleRequired.getD [] ≠ []) :
    (configureEndpoint options method e).authRequired = some true := by
  have hlen : (e.roleRequired.getD [] ++ options.roleRequired.getD []).length > 0 := by
    cases h : e.roleRequired.getD [] ++ options.roleRequired.getD [] with
    | nil => exact absurd h hne
    | cons a l => simp
  simp only [configureEndpoint, hEp, hRt]
  rw [if_neg hm, if_pos hlen]
  rfl

/-- C6 witnessed at a concrete input: GET endpoint with endpoint-level
roleRequired ['admin'] and authRequired unset at both levels. -/
theorem roleRequired_implies_authRequired_witness :
    (configureEndpoint { authRequired := none, roleRequired := none } "get"
      { roleRequired := some ["admin"] }).authRequired = some true :=
  roleRequired_implies_authRequired _ _ _ (by decide) (by decide) (by decide) (by decide)

/-- Helper: with no attached user the role check passes vacuously
(first guard of Route._roleAccepted). -/
theorem roleAccepted_none (e : EndpointOptions) : roleAccepted none e = true := by
  unfold roleAccepted
  cases e.roleRequired <;> rfl

/-- Helper: for an attached user, the role check fails exactly when a
roleRequired list is set and the user holds none of the listed roles, or —
when scopeRequired is also set — none of the listed scopes. -/
theorem roleAccepted_some_eq_false_iff (u : User) (e : EndpointOptions) :
    roleAccepted (some u) e = false ↔
      ∃ rr, e.roleRequired = some rr ∧
        (userIsInRole u rr = false ∨
         ∃ sr, e.scopeRequired = some sr ∧
           sr.any (fun s => (getScopesForUser u).contains s) = false) := by
  unfold roleAccepted
  cases hrr : e.roleRequired with
  | none => simp
  | some rr =>
    cases hsr : e.scopeRequired with
    | none => simp
    | some sr =>
      simp only [Bool.and_eq_false_iff, Option.some.injEq, exists_eq_left]
      cases h : userIsInRole u rr <;> simp [h]

/-- C1: the dispatch pipeline preserves the 401/403 distinction — it returns
401 exactly when the endpoint requires authentication and the extracted
credential is missing or resolves to no user record, and 403 exactly when
authentication succeeded (a user record was resolved and attached) but the
user holds none of the required roles, or — when scopeRequired is also set —
none of the required scopes.  The hypothesis excludes endpoint actions that
themselves return 401/403 bodies. -/
theorem dispatch_401_403 (cfg : ApiAuthConfig) (e : EndpointOptions) (req : Request)
    (action : Option User → StatusResponse)
    (hact : ∀ u, (action u).statusCode ≠ 401 ∧ (action u).statusCode ≠ 403) :
    ((callEndpoint cfg e req action).statusCode = 401 ↔
      (e.authRequired.getD false = true ∧ (cfg.extract req).bind cfg.lookup = none)) ∧
    ((callEndpoint cfg e req action).statusCode = 403 ↔
      ∃ u, e.authRequired.getD false = true ∧ (cfg.extract req).bind cfg.lookup = some u ∧
        ∃ rr, e.roleRequired = some rr ∧
          (userIsInRole u rr = false ∨
           ∃ sr, e.scopeRequired = some sr ∧
             sr.any (fun s => (getScopesForUser u).contains s) = false)) := by
  by_cases hA : e.authRequired.getD false = true
  · cases hx : cfg.extract req with
    | none =>
      have hres : callEndpoint cfg e req action = unauthorized401Default := by
        simp [callEndpoint, authAccepted, authenticate, hA, hx]
      rw [hres]
      constructor
      · simp [hx, hA, unauthorized401Default, unauthorized401, generateResponse]
      · simp [hx, unauthorized401Default, unauthorized401, generateResponse]
    | some tok =>
      cases hl : cfg.lookup tok with
      | none =>
        have hres : callEndpoint cfg e req action = unauthorized401Default := by
          simp [callEndpoint, authAccepted, authenticate, hA, hx, hl]
        rw [hres]
        constructor
        · simp [hx, hl, hA, unauthorized401Default, unauthorized401, generateResponse]
        · simp [hx, hl, unauthorized401Default, unauthorized401, generateResponse]
      | some u =>
        cases hr : roleAccepted (some u) e with
        | true =>
          have hres : callEndpoint cfg e req action = action (some u) := by
            simp [callEndpoint, authAccepted, authenticate, hA, hx, hl, hr]
          rw [hres]
          constructor
          · simp [hx, hl, (hact (some u)).1]
          · rw [iff_false_intro (hact (some u)).2]
            simp only [false_iff, not_exists]
            intro u'
            rintro ⟨-, hu', hfail⟩
            rw [Option.some_bind, hl] at hu'
            cases hu'
            exact absurd ((roleAccepted_some_eq_false_iff u e).mpr hfail)
              (by simp [hr])
        | false =>
          have hres : callEndpoint cfg e req action = forbidden403 := by
            simp [callEndpoint, authAccepted, authenticate, hA, hx, hl, hr]
          rw [hres]
          constructor
          · simp [hx, hl, forbidden403, generateResponse]
          · simp only [forbidden403, generateResponse]
            constructor
            · intro _
              refine ⟨u, hA, ?_, (roleAccepted_some_eq_false_iff u e).mp hr⟩
              simp [hl]
            · intro _
              trivial
  · have hA' : e.authRequired.getD false = false := by
      cases h : e.authRequired.getD false
      · rfl
      · exact absurd h hA
    have hres : callEndpoint cfg e req action = action none := by
      simp [callEndpoint, authAccepted, hA', roleAccepted_none]
    rw [hres]
    constructor
    · simp [hA', (hact none).1]
    · simp [hA', (hact none).2]

/-- A concrete authentication environment for witnessing C1: the extractor
reads the X-Auth-Token directly and the store holds one user with role
'member'. -/
def cfgW : ApiAuthConfig :=
  { extract := fun r => r.xAuthToken,
    lookup := fun t =>
      if t = "tok1" then some { uid := "u1", roles := ["member"], scopes := [] } else none }

/-- A concrete endpoint for witnessing C1: authentication required, role
'admin' required. -/
def eW : EndpointOptions := { authRequired := some true, roleRequired := some ["admin"] }

/-- A concrete request for witnessing C1: a valid token for the 'member'
user. -/
def reqW : Request := { xAuthToken := some "tok1" }

/-- A concrete endpoint action for witnessing C1, returning a 200. -/
def actW : Option User → StatusResponse := fun _ => success200 "ok"

/-- C1 witnessed at a concrete input: a valid credential resolving to a user
who holds role 'member' but not the required 'admin'. -/
theorem dispatch_401_403_witness :
    (((callEndpoint cfgW eW reqW actW).statusCode = 401 ↔
      (eW.authRequired.getD false = true ∧ (cfgW.extract reqW).bind cfgW.lookup = none)) ∧
    ((callEndpoint cfgW eW reqW actW).statusCode = 403 ↔
      ∃ u, eW.authRequired.getD false = true ∧ (cfgW.extract reqW).bind cfgW.lookup = some u ∧
        ∃ rr, eW.roleRequired = some rr ∧
          (userIsInRole u rr = false ∨
           ∃ sr, eW.scopeRequired = some sr ∧
             sr.any (fun s => (getScopesForUser u).contains s) = false))) :=
  dispatch_401_403 cfgW eW reqW actW
    (by intro u; exact ⟨by simp [actW, success200, generateResponse],
                        by simp [actW, success200, generateResponse]⟩)

/-- C10: when authRequired is explicitly false while the resolved
roleRequired is non-empty, the resolved configuration keeps authRequired
false, authentication is skipped (no user is attached to the context), the
role check passes vacuously, and every request reaches the endpoint action —
regardless of the credential environment. -/
theorem authRequired_false_reaches_action (options : RouteOptions) (method : String)
    (e : EndpointOptions) (cfg : ApiAuthConfig) (req : Request)
    (action : Option User → StatusResponse) (rr : List String)
    (hEp : e.authRequired = some false)
    (_hrr : (configureEndpoint options method e).roleRequired = some rr) :
    (configureEndpoint options method e).authRequired = some false ∧
    (authAccepted cfg (configureEndpoint options method e) req).user = none ∧
    roleAccepted (authAccepted cfg (configureEndpoint options method e) req).user
      (configureEndpoint options method e) = true ∧
    callEndpoint cfg (configureEndpoint options method e) req action = action none := by
  have h1 : (configureEndpoint options method e).authRequired = some false := by
    unfold configureEndpoint
    by_cases hm : method = "options"
    · rw [if_pos hm]; exact hEp
    · rw [if_neg hm]; simp only [hEp]
  have h2 : authAccepted cfg (configureEndpoint options method e) req = { success := true } := by
    unfold authAccepted
    rw [h1]
    rfl
  refine ⟨h1, by rw [h2], ?_, ?_⟩
  · rw [h2]
    exact roleAccepted_none _
  · simp [callEndpoint, h2, roleAccepted_none]

/-- C10 witnessed at a concrete input: endpoint-level authRequired false with
route-level roleRequired ['admin'], a request with no credential, an action
returning 200. -/
theorem authRequired_false_reaches_action_witness :
    (configureEndpoint { roleRequired := some ["admin"] } "get"
      { authRequired := some false }).authRequired = some false ∧
    (authAccepted cfgW (configureEndpoint { roleRequired := some ["admin"] } "get"
      { authRequired := some false }) { xAuthToken := none }).user = none ∧
    roleAccepted (authAccepted cfgW (configureEndpoint { roleRequired := some ["admin"] } "get"
        { authRequired := some false }) { xAuthToken := none }).user
      (configureEndpoint { roleRequired := some ["admin"] } "get"
        { authRequired := some false }) = true ∧
    callEndpoint cfgW (configureEndpoint { roleRequired := some ["admin"] } "get"
      { authRequired := some false }) { xAuthToken := none } actW = actW none :=
  authRequired_false_reaches_action _ _ _ cfgW { xAuthToken := none } actW ["admin"]
    rfl (by decide)

/-- C7: with a rate-limit policy configured, when the computed key has
exhausted its budget on the applicable limiter (the route-specific one if it
exists, else the global one), the response is exactly 429 'Too many
requests', the request terminates there (the downstream dispatch and hence
the endpoint action never run), and the status is not the authentication
failure status 401. -/
theorem rate_limit_exhausted_429 (keyGenerator : Option (Request → String))
    (routeLimiter : Option Limiter) (globalLimiter : Limiter) (req : Request)
    (dispatch : Request → SentResult)
    (hex : (routeLimiter.getD globalLimiter).consumeOk (computeKey keyGenerator req) = false) :
    handleWithRateLimit true keyGenerator routeLimiter globalLimiter req dispatch =
      ({ code := 429, data := "Too many requests" }, false) ∧
    (handleWithRateLimit true keyGenerator routeLimiter globalLimiter req dispatch).1.code ≠ 401 := by
  have h : handleWithRateLimit true keyGenerator routeLimiter globalLimiter req dispatch =
      ({ code := 429, data := "Too many requests" }, false) := by
    simp [handleWithRateLimit, hex]
  exact ⟨h, by rw [h]; decide⟩

/-- C7 witnessed at a concrete input: no keyGenerator and no route-specific
limiter, a global limiter whose budget is exhausted for every key. -/
theorem rate_limit_exhausted_429_witness :
    handleWithRateLimit true none none { consumeOk := fun _ => false } { xAuthToken := none }
      (fun _ => { code := 200, data := "ok" }) =
      ({ code := 429, data := "Too many requests" }, false) ∧
    (handleWithRateLimit true none none { consumeOk := fun _ => false } { xAuthToken := none }
      (fun _ => { code := 200, data := "ok" })).1.code ≠ 401 :=
  rate_limit_exhausted_429 none none { consumeOk := fun _ => false } { xAuthToken := none }
    (fun _ => { code := 200, data := "ok" }) rfl

/-- C8 counterexample: the end-to-end POST /logout pipeline with no
X-Auth-Token header answers 401, but with the generic body 'Unauthorized' —
not 'No auth token provided': the auth gate (logout has authRequired true)
rejects the request before MakaRest._logout ever runs. -/
theorem logout_no_token_counterexample :
    (logoutPipeline (fun s => s) (fun _ => none) { xAuthToken := none }).statusCode = 401 ∧
    (logoutPipeline (fun s => s) (fun _ => none) { xAuthToken := none }).body = "Unauthorized" ∧
    ("Unauthorized" : String) ≠ "No auth token provided" := by
  refine ⟨rfl, rfl, by decide⟩

/-- C8 (amended): for every POST to the logout endpoint without an
X-Auth-Token header — whatever the token hash and the user store — the
response is the default 401 with body 'Unauthorized'; the 'No auth token
provided' body of MakaRest._logout is unreachable for such requests because
the logout route requires authentication and the credential extractor yields
no token. -/
theorem logout_no_token_amended (hash : String → String) (lookup : String → Option User)
    (ip : String) :
    logoutPipeline hash lookup { xAuthToken := none, ip := ip } = unauthorized401Default ∧
    unauthorized401Default.statusCode = 401 ∧
    unauthorized401Default.body = "Unauthorized" :=
  ⟨rfl, rfl, rfl⟩

/-- Helper: after setting the login-token list of a present user id to the
empty list, looking the id up finds the empty list. -/
theorem lookup_setLoginTokensEmpty (db : List (String × List String)) (uid : String)
    (h : (db.lookup uid).isSome = true) :
    (setLoginTokensEmpty db uid).lookup uid = some [] := by
  induction db with
  | nil => simp [List.lookup] at h
  | cons p rest ih =>
    obtain ⟨k, v⟩ := p
    by_cases hk : uid = k
    · subst hk
      simp only [setLoginTokensEmpty, List.map]
      simp [List.lookup]
    · have hk' : (uid == k) = false := by simp [hk]
      simp only [List.lookup, hk'] at h
      simp only [setLoginTokensEmpty, List.map]
      rw [if_neg (fun hh => hk hh.symm)]
      simp only [List.lookup, hk']
      exact ih h

/-- C9: logoutAll answers 200, and a second logoutAll right after — which
finds the user's login-token list already empty — still sets it to the empty
list and answers 200 again rather than an error. -/
theorem logoutAll_idempotent (db : List (String × List String)) (u : User)
    (hookExtra : Option String) (h : (db.lookup u.uid).isSome = true) :
    (logoutAll db u hookExtra).2.statusCode = 200 ∧
    (logoutAll db u hookExtra).1.lookup u.uid = some [] ∧
    (logoutAll (logoutAll db u hookExtra).1 u hookExtra).2.statusCode = 200 := by
  refine ⟨?_, ?_, ?_⟩
  · cases hookExtra <;> rfl
  · cases hookExtra <;> exact lookup_setLoginTokensEmpty db u.uid h
  · cases hookExtra <;> rfl

/-- C9 witnessed at a concrete input: a store holding one user with two
login tokens and no onLoggedOut hook. -/
theorem logoutAll_idempotent_witness :
    (logoutAll [("u1", ["t1", "t2"])] { uid := "u1", roles := [], scopes := [] }
      none).2.statusCode = 200 ∧
    (logoutAll [("u1", ["t1", "t2"])] { uid := "u1", roles := [], scopes := [] }
      none).1.lookup "u1" = some [] ∧
    (logoutAll (logoutAll [("u1", ["t1", "t2"])] { uid := "u1", roles := [], scopes := [] }
        none).1 { uid := "u1", roles := [], scopes := [] } none).2.statusCode = 200 :=
  logoutAll_idempotent [("u1", ["t1", "t2"])] { uid := "u1", roles := [], scopes := [] }
    none (by decide)

/-- Helper: the segment loop succeeds exactly when the segment counts are
equal and each pattern segment is either a named-parameter marker or
byte-identical to the request segment at the same position. -/
theorem matchSegments_isSome_iff (ps rs : List String) :
    (matchSegments ps rs).isSome = true ↔
      (ps.length = rs.length ∧
       List.Forall₂ (fun p r => startsWithColon p = true ∨ p = r) ps rs) := by
  induction ps generalizing rs with
  | nil =>
    cases rs with
    | nil => simp [matchSegments]
    | cons r rs => simp [matchSegments]
  | cons p ps ih =>
    cases rs with
    | nil => simp [matchSegments]
    | cons r rs =>
      by_cases hc : startsWithColon p = true
      · simp [matchSegments, hc, ih, List.forall₂_cons]
      · by_cases he : p = r
        · subst he
          simp [matchSegments, hc, ih, List.forall₂_cons]
        · simp [matchSegments, hc, he, List.forall₂_cons]

/-- Helper: on success the extracted urlParams hold, in order, one binding
per ':'-marked pattern segment, mapping the name after the colon to the
request segment at the same position. -/
theorem matchSegments_eq_some (ps rs : List String) (prms : List (String × String))
    (h : matchSegments ps rs = some prms) :
    prms = (ps.zip rs).filterMap
      (fun pr => if startsWithColon pr.1 then some (jsSubstringFrom1 pr.1, pr.2) else none) := by
  induction ps generalizing rs prms with
  | nil =>
    cases rs with
    | nil =>
      simp only [matchSegments, Option.some.injEq] at h
      simp [h.symm]
    | cons r rs => simp [matchSegments] at h
  | cons p ps ih =>
    cases rs with
    | nil => simp [matchSegments] at h
    | cons r rs =>
      by_cases hc : startsWithColon p = true
      · simp only [matchSegments, hc, if_true] at h
        rcases Option.map_eq_some'.mp h with ⟨acc, hacc, hb⟩
        subst hb
        simp [List.filterMap_cons, hc, ih rs acc hacc]
      · by_cases he : p = r
        · subst he
          simp only [matchSegments] at h
          rw [if_neg hc, if_pos trivial] at h
          simp [List.filterMap_cons, hc, ih rs prms h]
        · simp [matchSegments, hc, he] at h

/-- C2: route matching of JsonRoutes.matchRoute (src/unnamed/part_005)
compares segment-by-segment with equal segment counts required; a pattern
segment matches when it starts with ':' or is byte-identical to the request
segment; the extracted urlParams map each parameter name to the literal
request segment at its position; and in particular pattern /articles/:id
against request path /articles/42 yields urlParams = \x7bid: "42"\x7d. -/
theorem route_matching_urlParams :
    (∀ ps rs : List String, (matchSegments ps rs).isSome = true ↔
      (ps.length = rs.length ∧
       List.Forall₂ (fun p r => startsWithColon p = true ∨ p = r) ps rs)) ∧
    (∀ (ps rs : List String) (prms : List (String × String)),
      matchSegments ps rs = some prms →
      prms = (ps.zip rs).filterMap
        (fun pr => if startsWithColon pr.1 then some (jsSubstringFrom1 pr.1, pr.2) else none)) ∧
    matchRoute "get" "/articles/:id" "GET" "/articles/42" = some [("id", "42")] :=
  ⟨matchSegments_isSome_iff, matchSegments_eq_some, by decide⟩

/-- C2 witnessed at the concrete example of the claim. -/
theorem route_matching_urlParams_witness :
    matchRoute "get" "/articles/:id" "GET" "/articles/42" = some [("id", "42")] :=
  route_matching_urlParams.2.2

end MakaRest
